import Mathlib

/-!
Shallow embedding of `src/script.js` (the Slidy range-slider widget and its
Draggable gesture helper). JavaScript numbers are modelled as rationals;
`Math.round`, truncating division and the `%` remainder are embedded
explicitly. Stateful DOM code is modelled as explicit state passing on a
record of the widget's observable surfaces (stored values, the two text
inputs, and the style hooks written by `#updateTrack`).
-/

namespace Slidy

/-- JS `Math.round x`: rounds half-up, i.e. `⌊x + 1/2⌋`. -/
def jsRound (x : ℚ) : ℤ := ⌊x + 1 / 2⌋

/-- JS truncation toward zero (used by the `%` operator). -/
def jsTrunc (x : ℚ) : ℤ := if 0 ≤ x then ⌊x⌋ else ⌈x⌉

/-- JS remainder `a % b` (for `b ≠ 0`): `a - trunc (a / b) * b`. -/
def jsMod (a b : ℚ) : ℚ := a - (jsTrunc (a / b) : ℚ) * b

/-- The resolved configuration stored in `this.options` after construction
(`min`, `max`, `step`; `segmentsCount` is carried separately where needed). -/
structure Config where
  min : ℚ
  max : ℚ
  step : ℚ
deriving DecidableEq, Repr

/-- `#normalizeMinMax` (script.js lines 290-298): clamp below `min` to `min`,
above `max` to `max`, otherwise keep the value if `value % step === 0` and
round to `Math.round(value / step) * step` if not. -/
def normalizeMinMax (cfg : Config) (value : ℚ) : ℚ :=
  if value < cfg.min then cfg.min
  else if value > cfg.max then cfg.max
  else if jsMod value cfg.step = 0 then value
  else (jsRound (value / cfg.step) : ℚ) * cfg.step

/-- The widget's observable mutable surfaces: the stored `values` array, the
numeric content of the two text inputs (`minInput.value`, `maxInput.value`),
and the style hooks written by `#updateTrack` (`--jj-sildy-button-left` of the
two buttons and the track's `--jj-sildy-track-min-left` /
`--jj-sildy-track-max-left`, as percentages). -/
structure WidgetState where
  values : List ℚ
  minInputText : ℚ
  maxInputText : Option ℚ
  minButtonLeft : ℚ
  maxButtonLeft : Option ℚ
  trackMinLeft : ℚ
  trackMaxLeft : ℚ
deriving DecidableEq, Repr

/-- `#updateTrack` (lines 274-288): recompute the handles' percentages from the
stored values and write the position/fill style hooks. -/
def updateTrack (cfg : Config) (s : WidgetState) : WidgetState :=
  let minPercent := (s.values.getD 0 0 - cfg.min) / (cfg.max - cfg.min) * 100
  if s.values.length = 2 then
    let maxPercent := (s.values.getD 1 0 - cfg.min) / (cfg.max - cfg.min) * 100
    ⟨s.values, s.minInputText, s.maxInputText,
      minPercent, some maxPercent, minPercent, maxPercent⟩
  else
    ⟨s.values, s.minInputText, s.maxInputText,
      minPercent, s.maxButtonLeft, 0, minPercent⟩

/-- `updateValues` (lines 258-272): normalize every proposed value, swap the
pair (`shift` then `push`) when slot 0 exceeds slot 1, rewrite the text
inputs, then run `#updateTrack`. NOTE: this is the numeric restriction of the
code — faithful whenever at most one stored slot holds a text-channel string,
so for every number-submitting channel. When BOTH slots hold strings the
line-261 `>` compares lexicographically; `updateValuesJs` below models
that. -/
def updateValues (cfg : Config) (s : WidgetState) (vs : List ℚ) : WidgetState :=
  let nvs := vs.map (normalizeMinMax cfg)
  let nvs := match nvs with
    | [a, b] => if a > b then [b, a] else [a, b]
    | l => l
  updateTrack cfg
    ⟨nvs, nvs.getD 0 0,
      if nvs.length = 2 then some (nvs.getD 1 0) else s.maxInputText,
      s.minButtonLeft, s.maxButtonLeft, s.trackMinLeft, s.trackMaxLeft⟩

/-- `#updateMin` (lines 239-242): overwrite slot 0 with the proposed value and
rerun `updateValues`. -/
def updateMin (cfg : Config) (s : WidgetState) (newValue : ℚ) : WidgetState :=
  updateValues cfg s (s.values.set 0 newValue)

/-- `#updateMax` (lines 247-253): a no-op unless the widget holds two values;
otherwise overwrite slot 1 and rerun `updateValues`. -/
def updateMax (cfg : Config) (s : WidgetState) (newValue : ℚ) : WidgetState :=
  if s.values.length ≠ 2 then s
  else updateValues cfg s (s.values.set 1 newValue)

/-- The raw value proposed by the drag callback in `#createButton`
(line 149): `Math.round(min + (max - min) * (percentage / 100))`. -/
def dragProposedValue (cfg : Config) (p : ℚ) : ℚ :=
  (jsRound (cfg.min + (cfg.max - cfg.min) * (p / 100)) : ℚ)

/-- The drag callback of `#createButton` (lines 148-155): map the reported
percentage to a raw value and submit it to the handle's slot. -/
def dragSubmit (cfg : Config) (isMax : Bool) (s : WidgetState) (p : ℚ) :
    WidgetState :=
  if isMax then updateMax cfg s (dragProposedValue cfg p)
  else updateMin cfg s (dragProposedValue cfg p)

/-- The regex filter of `#createInput` (line 104): `replace(/[^0-9]/g, '')`
keeps exactly the characters `'0'..'9'`. -/
def filterDigits (s : List Char) : List Char :=
  s.filter fun c => decide ('0' ≤ c) && decide (c ≤ '9')

/-- Numeric coercion of a digits-only JS string (how the stored string behaves
in every subsequent arithmetic comparison): the empty string coerces to `0`,
otherwise the decimal value of the digits. -/
def digitsToNat (s : List Char) : ℕ :=
  s.foldl (fun acc c => 10 * acc + (c.toNat - 48)) 0

/-- The input listener of `#createInput` (lines 103-110): strip non-digits
from the entered text and submit the result to the handle's slot. NOTE: the
code submits the filtered STRING itself; this definition coerces it to its
numeric value eagerly, which matches every numeric observation of a single
submission but erases the string identity that `textInputSubmitJs` below
keeps. -/
def textInputSubmit (cfg : Config) (isMax : Bool) (s : WidgetState)
    (raw : List Char) : WidgetState :=
  let newValue : ℚ := (digitsToNat (filterDigits raw) : ℚ)
  if isMax then updateMax cfg s newValue else updateMin cfg s newValue

/-- The segment click listener of `#init` (lines 212-224): in range mode a
boundary strictly below the current upper value goes to slot 0, otherwise to
slot 1; in single mode it always goes to slot 0. -/
def segmentClick (cfg : Config) (s : WidgetState) (i : ℚ) : WidgetState :=
  if s.values.length = 2 then
    if i < s.values.getD 1 0 then updateMin cfg s i else updateMax cfg s i
  else updateMin cfg s i

/-- The body of the segment generation loop in `#init` (line 209), with an
explicit iteration budget: emit `i` while `i ≤ max`, stepping by `d`. -/
def segmentLoop (maxV d : ℚ) : ℕ → ℚ → List ℚ
  | 0, _ => []
  | n + 1, i => if i ≤ maxV then i :: segmentLoop maxV d n (i + d) else []

/-- The boundary values generated by `#init` (line 209):
`for (let i = min; i <= max; i += (max - min) / (segmentsCount - 1))`. The
budget `⌈sc⌉.toNat + 1` covers every terminating run of the source loop (with
`min < max` and `sc ≥ 2` the loop body executes exactly `sc` times, since
`min + k·d ≤ max` iff `k ≤ sc - 1`). -/
def segmentBoundaries (cfg : Config) (sc : ℚ) : List ℚ :=
  segmentLoop cfg.max ((cfg.max - cfg.min) / (sc - 1)) (⌈sc⌉.toNat + 1) cfg.min

/-- `Draggable.#handleMouseMove` (lines 24-29): the stored relative offset is
`event.pageX - width`, the pointer's absolute X minus the element's rendered
width. -/
def handleMouseMove (pageX width : ℚ) : ℚ := pageX - width

/-- The construction options object (`min`, `max`, `step`, `segmentsCount`,
`defaultValue`), each field possibly absent. `defaultValue` may also be a
defined non-array value, which the constructor must reject. -/
inductive JsDefaultValue where
  | undefined
  | arr (l : List ℚ)
  | nonArray
deriving DecidableEq, Repr

structure Options where
  min : Option ℚ
  max : Option ℚ
  step : Option ℚ
  segmentsCount : Option ℚ
  defaultValue : JsDefaultValue
deriving DecidableEq, Repr

/-- The `defaultValue` guard of the constructor (line 64):
`(dv !== undefined && !Array.isArray(dv)) || dv?.length < 1 || dv?.length > 2`
(with `?.length` undefined — hence both comparisons false — when `dv` is
`undefined` or has no length). -/
def badDefaultValue : JsDefaultValue → Bool
  | .undefined => false
  | .nonArray => true
  | .arr l => decide (l.length < 1) || decide (l.length > 2)

/-- The `Slidy` constructor (lines 60-88): the four synchronous guards in
source order, then the resolved `options` (the `...options` spread lets any
supplied field override the `||`-defaults) and the initial
`values = defaultValue || [0]`. Only on success is anything built. -/
def slidyNew (containerSelector : Option String) (o : Options) :
    Except String (Config × Option ℚ × List ℚ) :=
  if containerSelector = none ∨ containerSelector = some "" then
    .error "Slidy: containerSelector is required"
  else if badDefaultValue o.defaultValue then
    .error "Slidy: defaultValue must be an array of length 1 or 2"
  else if o.min.isSome ∧ o.max.isSome ∧ o.min.getD 0 ≥ o.max.getD 0 then
    .error "Slidy: min must be less than max"
  else if o.segmentsCount.isSome ∧ o.segmentsCount.getD 0 < 2 then
    .error "Slidy: segmentsCount must be greater than 2"
  else
    .ok (⟨o.min.getD 0, o.max.getD 100, o.step.getD 1⟩, o.segmentsCount,
      match o.defaultValue with
      | .arr l => l
      | _ => [0])

/-- The validity predicate the constructor actually enforces, written from the
guards above: a present, non-empty selector; a well-formed `defaultValue`;
`min < max` only when BOTH are explicitly supplied; `segmentsCount ≥ 2` when
supplied. -/
def validOptions (containerSelector : Option String) (o : Options) : Prop :=
  ¬(containerSelector = none ∨ containerSelector = some "") ∧
  badDefaultValue o.defaultValue = false ∧
  ¬(o.min.isSome ∧ o.max.isSome ∧ o.min.getD 0 ≥ o.max.getD 0) ∧
  ¬(o.segmentsCount.isSome ∧ o.segmentsCount.getD 0 < 2)

instance (s : Option String) (o : Options) : Decidable (validOptions s o) := by
  unfold validOptions; infer_instance

/-! ### The string-aware value layer

The text channel (`#createInput`, line 104) submits the filtered STRING
itself, not a parsed number. `#normalizeMinMax` returns that string unchanged
whenever it is in range and step-aligned (`'9' % 1 === 0` holds after
coercion, and `return value` keeps the string), so stored slots can hold
strings, and the swap guard `this.values[0] > this.values[1]` (line 261)
compares two strings LEXICOGRAPHICALLY. The rational-valued pipeline above is
the numeric restriction of this layer — adequate for the number-submitting
channels (drag, keyboard, segment click) and for any single coerced
observation — while the definitions below carry the number-vs-string
distinction faithfully. -/

/-- A JS value as stored in `this.values`: a number, or a digits-only string
coming from the input filter (the only strings that ever reach the engine). -/
inductive JsVal where
  | num (q : ℚ)
  | str (s : List Char)
deriving DecidableEq, Repr

/-- ECMAScript ToNumber on the values the engine stores: numbers are
themselves; the digit-only filtered strings evaluate to their decimal value,
the empty string to `0`. -/
def JsVal.toNumber : JsVal → ℚ
  | .num q => q
  | .str s => (digitsToNat s : ℚ)

def JsVal.isNum : JsVal → Bool
  | .num _ => true
  | .str _ => false

/-- ECMAScript abstract relational comparison of two strings: code-unit
lexicographic, a proper prefix being smaller. -/
def strLt : List Char → List Char → Bool
  | [], [] => false
  | [], _ :: _ => true
  | _ :: _, [] => false
  | a :: as, b :: bs =>
    if a < b then true else if b < a then false else strLt as bs

/-- JS `a > b` as performed at line 261: when BOTH operands are strings the
comparison is lexicographic; otherwise both sides go through ToNumber. -/
def jsGt (a b : JsVal) : Bool :=
  match a, b with
  | .str x, .str y => strLt y x
  | _, _ => decide (b.toNumber < a.toNumber)

/-- `#normalizeMinMax` on a stored JS value: the relational and `%` operands
coerce via ToNumber, the clamp and rounding branches produce numbers, but the
step-aligned branch returns `value` itself — preserving a string. -/
def normalizeMinMaxJs (cfg : Config) (value : JsVal) : JsVal :=
  if value.toNumber < cfg.min then .num cfg.min
  else if value.toNumber > cfg.max then .num cfg.max
  else if jsMod value.toNumber cfg.step = 0 then value
  else .num ((jsRound (value.toNumber / cfg.step) : ℚ) * cfg.step)

/-- The widget's observable surfaces with string-carrying slots; the style
hooks are numeric because their arithmetic coerces. -/
structure WidgetStateJs where
  values : List JsVal
  minInputText : JsVal
  maxInputText : Option JsVal
  minButtonLeft : ℚ
  maxButtonLeft : Option ℚ
  trackMinLeft : ℚ
  trackMaxLeft : ℚ
deriving DecidableEq, Repr

/-- `#updateTrack` (lines 274-288) over stored JS values: the subtractions
coerce each slot via ToNumber. -/
def updateTrackJs (cfg : Config) (s : WidgetStateJs) : WidgetStateJs :=
  let minPercent :=
    ((s.values.getD 0 (.num 0)).toNumber - cfg.min) / (cfg.max - cfg.min) * 100
  if s.values.length = 2 then
    let maxPercent :=
      ((s.values.getD 1 (.num 0)).toNumber - cfg.min) / (cfg.max - cfg.min) *
        100
    ⟨s.values, s.minInputText, s.maxInputText,
      minPercent, some maxPercent, minPercent, maxPercent⟩
  else
    ⟨s.values, s.minInputText, s.maxInputText,
      minPercent, s.maxButtonLeft, 0, minPercent⟩

/-- `updateValues` (lines 258-272) over stored JS values: normalize every
slot, then swap the pair when `values[0] > values[1]` under JS comparison —
lexicographic when both slots hold strings. -/
def updateValuesJs (cfg : Config) (s : WidgetStateJs) (vs : List JsVal) :
    WidgetStateJs :=
  let nvs := vs.map (normalizeMinMaxJs cfg)
  let nvs := match nvs with
    | [a, b] => if jsGt a b then [b, a] else [a, b]
    | l => l
  updateTrackJs cfg
    ⟨nvs, nvs.getD 0 (.num 0),
      if nvs.length = 2 then some (nvs.getD 1 (.num 0)) else s.maxInputText,
      s.minButtonLeft, s.maxButtonLeft, s.trackMinLeft, s.trackMaxLeft⟩

/-- `#updateMin` (lines 239-242) over stored JS values. -/
def updateMinJs (cfg : Config) (s : WidgetStateJs) (newValue : JsVal) :
    WidgetStateJs :=
  updateValuesJs cfg s (s.values.set 0 newValue)

/-- `#updateMax` (lines 247-253) over stored JS values. -/
def updateMaxJs (cfg : Config) (s : WidgetStateJs) (newValue : JsVal) :
    WidgetStateJs :=
  if s.values.length ≠ 2 then s
  else updateValuesJs cfg s (s.values.set 1 newValue)

/-- The input listener of `#createInput` (lines 103-110), faithfully: the
submitted value is the filtered digit STRING itself. -/
def textInputSubmitJs (cfg : Config) (isMax : Bool) (s : WidgetStateJs)
    (raw : List Char) : WidgetStateJs :=
  let newValue : JsVal := .str (filterDigits raw)
  if isMax then updateMaxJs cfg s newValue else updateMinJs cfg s newValue

/-! ### Helper lemmas about the embedded JS arithmetic -/

theorem jsTrunc_intCast (k : ℤ) : jsTrunc (k : ℚ) = k := by
  unfold jsTrunc
  split <;> simp

theorem jsMod_int_mul (k : ℤ) (b : ℚ) (hb : b ≠ 0) :
    jsMod ((k : ℚ) * b) b = 0 := by
  unfold jsMod
  rw [mul_div_assoc, div_self hb, mul_one, jsTrunc_intCast]
  ring

/-- When `min` and `max` are integer multiples of a positive `step`,
`#normalizeMinMax` stays inside `[min, max]`: the clamped branches return a
bound, and in the rounding branch `⌊v/step + 1/2⌋` lies between `min/step`
and `max/step`. -/
theorem normalizeMinMax_bounds (cfg : Config) (hlt : cfg.min < cfg.max)
    (hstep : 0 < cfg.step) (hmin : ∃ k : ℤ, cfg.min = (k : ℚ) * cfg.step)
    (hmax : ∃ m : ℤ, cfg.max = (m : ℚ) * cfg.step) (v : ℚ) :
    cfg.min ≤ normalizeMinMax cfg v ∧ normalizeMinMax cfg v ≤ cfg.max := by
  obtain ⟨k, hk⟩ := hmin
  obtain ⟨m, hm⟩ := hmax
  unfold normalizeMinMax
  split_ifs with h1 h2 h3
  · exact ⟨le_refl _, le_of_lt hlt⟩
  · exact ⟨le_of_lt hlt, le_refl _⟩
  · exact ⟨not_lt.mp h1, not_lt.mp h2⟩
  · push_neg at h1 h2
    constructor
    · have h1' : (k : ℚ) * cfg.step ≤ v := by rw [← hk]; exact h1
      have hkq : (k : ℚ) ≤ v / cfg.step := by
        rw [le_div_iff₀ hstep]; exact h1'
      have hkf : k ≤ jsRound (v / cfg.step) :=
        Int.le_floor.mpr (by linarith)
      calc cfg.min = (k : ℚ) * cfg.step := hk
        _ ≤ (jsRound (v / cfg.step) : ℚ) * cfg.step :=
            mul_le_mul_of_nonneg_right (by exact_mod_cast hkf) (le_of_lt hstep)
    · have h2' : v ≤ (m : ℚ) * cfg.step := by rw [← hm]; exact h2
      have hvm : v / cfg.step ≤ (m : ℚ) := by
        rw [div_le_iff₀ hstep]; exact h2'
      have hfm : jsRound (v / cfg.step) < m + 1 := by
        apply Int.floor_lt.mpr
        push_cast
        linarith
      have hle : jsRound (v / cfg.step) ≤ m := by omega
      calc (jsRound (v / cfg.step) : ℚ) * cfg.step
          ≤ (m : ℚ) * cfg.step :=
            mul_le_mul_of_nonneg_right (by exact_mod_cast hle) (le_of_lt hstep)
        _ = cfg.max := hm.symm
/-- When `min` and `max` are integer multiples of a positive `step`, every
branch of `#normalizeMinMax` returns a value with `value % step === 0`. -/
theorem normalizeMinMax_aligned (cfg : Config) (hstep : 0 < cfg.step)
    (hmin : ∃ k : ℤ, cfg.min = (k : ℚ) * cfg.step)
    (hmax : ∃ m : ℤ, cfg.max = (m : ℚ) * cfg.step) (v : ℚ) :
    jsMod (normalizeMinMax cfg v) cfg.step = 0 := by
  obtain ⟨k, hk⟩ := hmin
  obtain ⟨m, hm⟩ := hmax
  unfold normalizeMinMax
  split_ifs with h1 h2 h3
  · rw [hk]; exact jsMod_int_mul k cfg.step (ne_of_gt hstep)
  · rw [hm]; exact jsMod_int_mul m cfg.step (ne_of_gt hstep)
  · exact h3
  · exact jsMod_int_mul _ cfg.step (ne_of_gt hstep)

/-! ### Helper lemmas about state propagation -/

/-- `#updateTrack` only rewrites style hooks; the stored values survive. -/
theorem updateTrack_values (cfg : Config) (s : WidgetState) :
    (updateTrack cfg s).values = s.values := by
  unfold updateTrack
  dsimp only
  split <;> rfl

/-- `updateValues` on a proposed pair stores the two normalized values,
swapped when slot 0 exceeds slot 1. -/
theorem updateValues_pair_values (cfg : Config) (s : WidgetState) (a b : ℚ) :
    (updateValues cfg s [a, b]).values =
      if normalizeMinMax cfg a > normalizeMinMax cfg b then
        [normalizeMinMax cfg b, normalizeMinMax cfg a]
      else [normalizeMinMax cfg a, normalizeMinMax cfg b] := by
  unfold updateValues
  dsimp only [List.map]
  rw [updateTrack_values]

/-- `updateValues` on a proposed singleton stores the normalized value. -/
theorem updateValues_single_values (cfg : Config) (s : WidgetState) (a : ℚ) :
    (updateValues cfg s [a]).values = [normalizeMinMax cfg a] := by
  unfold updateValues
  dsimp only [List.map]
  rw [updateTrack_values]

/-- The string-aware `#updateTrack` also leaves the stored values alone. -/
theorem updateTrackJs_values (cfg : Config) (s : WidgetStateJs) :
    (updateTrackJs cfg s).values = s.values := by
  unfold updateTrackJs
  dsimp only
  split <;> rfl

/-- The string-aware `updateValues` on a proposed pair stores the two
normalized values, swapped when the JS comparison says slot 0 exceeds
slot 1. -/
theorem updateValuesJs_pair_values (cfg : Config) (s : WidgetStateJs)
    (u v : JsVal) :
    (updateValuesJs cfg s [u, v]).values =
      if jsGt (normalizeMinMaxJs cfg u) (normalizeMinMaxJs cfg v) then
        [normalizeMinMaxJs cfg v, normalizeMinMaxJs cfg u]
      else [normalizeMinMaxJs cfg u, normalizeMinMaxJs cfg v] := by
  unfold updateValuesJs
  dsimp only [List.map]
  rw [updateTrackJs_values]

/-- Every branch of the string-aware normalization preserves numbers: only an
already stored string can come back as a string. -/
theorem normalizeMinMaxJs_isNum (cfg : Config) (v : JsVal)
    (h : v.isNum = true) : (normalizeMinMaxJs cfg v).isNum = true := by
  unfold normalizeMinMaxJs
  split_ifs <;> first | rfl | exact h

/-- The string-aware normalization refines the rational one through
ToNumber: both take the same branches on `v.toNumber`. -/
theorem normalizeMinMaxJs_toNumber (cfg : Config) (v : JsVal) :
    (normalizeMinMaxJs cfg v).toNumber = normalizeMinMax cfg v.toNumber := by
  unfold normalizeMinMaxJs normalizeMinMax
  split_ifs <;> rfl

/-- Unless BOTH operands are strings, JS `>` is the numeric comparison of the
ToNumber coercions. -/
theorem jsGt_eq_decide (a b : JsVal) (h : a.isNum = true ∨ b.isNum = true) :
    jsGt a b = decide (b.toNumber < a.toNumber) := by
  cases a <;> cases b <;> simp [jsGt, JsVal.isNum] at h ⊢

/-! ### Claims -/

/-- Claim C1, counterexample: with `min = 0 < max = 8` and positive
`step = 5`, `#normalizeMinMax` maps the in-range proposal `8` to
`Math.round(8/5)*5 = 10`, which is NOT in `[0, 8]`: the rounding branch can
overshoot an unaligned `max`. -/
theorem normalizeMinMax_escapes_range :
    (0 : ℚ) < 8 ∧ (0 : ℚ) < 5 ∧ normalizeMinMax ⟨0, 8, 5⟩ 8 = 10 ∧
      ¬ normalizeMinMax ⟨0, 8, 5⟩ 8 ≤ (⟨0, 8, 5⟩ : Config).max := by
  norm_num [normalizeMinMax, jsMod, jsTrunc, jsRound]

/-- Claim C1 (amended): for every configuration with `min < max` and positive
`step` in which `min` and `max` are themselves integer multiples of `step`,
`#normalizeMinMax` returns a result in `[min, max]` for every proposed
value. -/
theorem claim_C1_normalize_in_range (cfg : Config) (hlt : cfg.min < cfg.max)
    (hstep : 0 < cfg.step) (hmin : ∃ k : ℤ, cfg.min = (k : ℚ) * cfg.step)
    (hmax : ∃ m : ℤ, cfg.max = (m : ℚ) * cfg.step) (v : ℚ) :
    cfg.min ≤ normalizeMinMax cfg v ∧ normalizeMinMax cfg v ≤ cfg.max :=
  normalizeMinMax_bounds cfg hlt hstep hmin hmax v

/-- Witness for C1 at `min = 0, max = 100, step = 5`, proposed value `103`
(normalized to `100`). -/
theorem claim_C1_witness :
    (⟨0, 100, 5⟩ : Config).min ≤ normalizeMinMax ⟨0, 100, 5⟩ 103 ∧
      normalizeMinMax ⟨0, 100, 5⟩ 103 ≤ (⟨0, 100, 5⟩ : Config).max :=
  claim_C1_normalize_in_range ⟨0, 100, 5⟩ (by norm_num) (by norm_num)
    ⟨0, by norm_num⟩ ⟨20, by norm_num⟩ 103

/-- Claim C2, counterexample: with `min = 1, max = 10, step = 5` (a
configuration with `min < max`, positive step, and `min` not a multiple of
`step`), the proposal `0` is clamped to `min = 1`, and `1 % 5 ≠ 0`: clamped
results inherit the bound's misalignment. -/
theorem normalizeMinMax_not_aligned :
    (1 : ℚ) < 10 ∧ (0 : ℚ) < 5 ∧ normalizeMinMax ⟨1, 10, 5⟩ 0 = 1 ∧
      jsMod (normalizeMinMax ⟨1, 10, 5⟩ 0) 5 ≠ 0 := by
  norm_num [normalizeMinMax, jsMod, jsTrunc, jsRound]

/-- Claim C2 (amended): when `min` and `max` are themselves integer multiples
of the positive `step`, `#normalizeMinMax`'s result satisfies
`result % step === 0` for every proposed value. -/
theorem claim_C2_normalize_aligned (cfg : Config) (hstep : 0 < cfg.step)
    (hmin : ∃ k : ℤ, cfg.min = (k : ℚ) * cfg.step)
    (hmax : ∃ m : ℤ, cfg.max = (m : ℚ) * cfg.step) (v : ℚ) :
    jsMod (normalizeMinMax cfg v) cfg.step = 0 :=
  normalizeMinMax_aligned cfg hstep hmin hmax v

/-- Witness for C2 at `min = 0, max = 100, step = 5`, proposed value `52`
(normalized to `50`, and `50 % 5 = 0`). -/
theorem claim_C2_witness :
    jsMod (normalizeMinMax ⟨0, 100, 5⟩ 52) (⟨0, 100, 5⟩ : Config).step = 0 :=
  claim_C2_normalize_aligned ⟨0, 100, 5⟩ (by norm_num) ⟨0, by norm_num⟩
    ⟨20, by norm_num⟩ 52

/-- Claim C3, counterexample: with `min = 1, max = 10, step = 5`,
`normalize(0) = 1` (clamped to the unaligned `min`) but
`normalize(1) = Math.round(1/5)*5 = 0`, so `normalize ∘ normalize ≠
normalize` at `0`. -/
theorem normalizeMinMax_not_idempotent :
    (1 : ℚ) < 10 ∧ (0 : ℚ) < 5 ∧
      normalizeMinMax ⟨1, 10, 5⟩ (normalizeMinMax ⟨1, 10, 5⟩ 0) ≠
        normalizeMinMax ⟨1, 10, 5⟩ 0 := by
  norm_num [normalizeMinMax, jsMod, jsTrunc, jsRound]

/-- Claim C3 (amended): `#normalizeMinMax` is idempotent for every
configuration with `min < max` and positive `step` in which `min` and `max`
are integer multiples of `step`. -/
theorem claim_C3_normalize_idempotent (cfg : Config) (hlt : cfg.min < cfg.max)
    (hstep : 0 < cfg.step) (hmin : ∃ k : ℤ, cfg.min = (k : ℚ) * cfg.step)
    (hmax : ∃ m : ℤ, cfg.max = (m : ℚ) * cfg.step) (v : ℚ) :
    normalizeMinMax cfg (normalizeMinMax cfg v) = normalizeMinMax cfg v := by
  have hb := normalizeMinMax_bounds cfg hlt hstep hmin hmax v
  have ha := normalizeMinMax_aligned cfg hstep hmin hmax v
  set r := normalizeMinMax cfg v with hr
  unfold normalizeMinMax
  split_ifs with h1 h2
  · linarith [hb.1]
  · linarith [hb.2]
  · rfl

/-- Witness for C3 at `min = 0, max = 100, step = 5`, proposed value `52`. -/
theorem claim_C3_witness :
    normalizeMinMax ⟨0, 100, 5⟩ (normalizeMinMax ⟨0, 100, 5⟩ 52) =
      normalizeMinMax ⟨0, 100, 5⟩ 52 :=
  claim_C3_normalize_idempotent ⟨0, 100, 5⟩ (by norm_num) (by norm_num)
    ⟨0, by norm_num⟩ ⟨20, by norm_num⟩ 52

/-- Claim C4, counterexample: on the shipped range widget
(`min = 0, max = 250`, default `step = 1`, initial `[50, 80]`), typing `9`
into the lower input and then `10` into the upper one stores the STRINGS
`'9'` and `'10'`; the line-261 guard compares them lexicographically
(`'9' > '10'` is true, since `'9' > '1'`), swaps, and the widget ends with
`values = ['10', '9']` — numerically `[10, 9]`, violating
`values[0] ≤ values[1]`. -/
theorem text_inputs_store_unordered_pair :
    (textInputSubmitJs ⟨0, 250, 1⟩ true
        (textInputSubmitJs ⟨0, 250, 1⟩ false
          ⟨[.num 50, .num 80], .num 50, some (.num 80), 20, some 32, 20, 32⟩
          "9".toList)
        "10".toList).values =
      [.str "10".toList, .str "9".toList] ∧
    (JsVal.str "10".toList).toNumber = 10 ∧
    (JsVal.str "9".toList).toNumber = 9 ∧
    ¬ (JsVal.str "10".toList).toNumber ≤ (JsVal.str "9".toList).toNumber := by
  have h9 : filterDigits "9".toList = ['9'] := by decide
  have h10 : filterDigits "10".toList = ['1', '0'] := by decide
  have d9 : digitsToNat ['9'] = 9 := by decide
  have d10 : digitsToNat ['1', '0'] = 10 := by decide
  have hlex : strLt ['1', '0'] ['9'] = true := by decide
  have s1 :
      textInputSubmitJs ⟨0, 250, 1⟩ false
          ⟨[.num 50, .num 80], .num 50, some (.num 80), 20, some 32, 20, 32⟩
          "9".toList =
        ⟨[.str ['9'], .num 80], .str ['9'], some (.num 80),
          18 / 5, some 32, 18 / 5, 32⟩ := by
    simp only [textInputSubmitJs, h9]
    norm_num [updateMinJs, updateValuesJs, updateTrackJs, normalizeMinMaxJs,
      jsGt, JsVal.toNumber, d9, jsMod, jsTrunc, jsRound]
  refine ⟨?_, by norm_num [JsVal.toNumber, d10],
    by norm_num [JsVal.toNumber, d9],
    by norm_num [JsVal.toNumber, d9, d10]⟩
  rw [s1]
  simp only [textInputSubmitJs, h10]
  norm_num [updateMaxJs, updateValuesJs, updateTrackJs, normalizeMinMaxJs,
    jsGt, hlex, JsVal.toNumber, d9, d10, jsMod, jsTrunc, jsRound]

/-- Claim C4 (amended): in range mode every mutation normalizes both slots and
swaps them as a full pair when the JS `>` comparison says slot 0 exceeds
slot 1; whenever at least one slot of the proposed pair is a number — as
after every drag, keyboard step and segment click, and after a text edit
while the other slot holds a number — the comparison is numeric and the
stored pair satisfies `values[0] ≤ values[1]` under ToNumber; in the spec's
scenario `min = 0, max = 250, values = [50, 80]`, submitting `90` to the
lower slot yields `values = [80, 90]` — a swap, not a clamp. (Only a pair of
text-channel strings is compared lexicographically, see the
counterexample.) -/
theorem claim_C4_pair_ordered (cfg : Config) (s : WidgetStateJs) (u v : JsVal)
    (h : u.isNum = true ∨ v.isNum = true) :
    (((updateValuesJs cfg s [u, v]).values.getD 0 (.num 0)).toNumber ≤
      ((updateValuesJs cfg s [u, v]).values.getD 1 (.num 0)).toNumber) ∧
    (updateMinJs ⟨0, 250, 1⟩
        ⟨[.num 50, .num 80], .num 50, some (.num 80), 20, some 32, 20, 32⟩
        (.num 90)).values = [.num 80, .num 90] := by
  constructor
  · have h' : (normalizeMinMaxJs cfg u).isNum = true ∨
        (normalizeMinMaxJs cfg v).isNum = true := by
      rcases h with h | h
      · exact Or.inl (normalizeMinMaxJs_isNum cfg u h)
      · exact Or.inr (normalizeMinMaxJs_isNum cfg v h)
    rw [updateValuesJs_pair_values, jsGt_eq_decide _ _ h']
    simp only [decide_eq_true_eq]
    split_ifs with hgt
    · simpa using le_of_lt hgt
    · simpa using not_lt.mp hgt
  · norm_num [updateMinJs, updateValuesJs, updateTrackJs, normalizeMinMaxJs,
      jsGt, JsVal.toNumber, jsMod, jsTrunc, jsRound]

/-- Witness for the amended C4 at the scenario's configuration, proposing the
numeric pair `90, 80`. -/
theorem claim_C4_witness :
    (((updateValuesJs ⟨0, 250, 1⟩
          ⟨[.num 50, .num 80], .num 50, some (.num 80), 20, some 32, 20, 32⟩
          [.num 90, .num 80]).values.getD 0 (.num 0)).toNumber ≤
      ((updateValuesJs ⟨0, 250, 1⟩
          ⟨[.num 50, .num 80], .num 50, some (.num 80), 20, some 32, 20, 32⟩
          [.num 90, .num 80]).values.getD 1 (.num 0)).toNumber) ∧
    (updateMinJs ⟨0, 250, 1⟩
        ⟨[.num 50, .num 80], .num 50, some (.num 80), 20, some 32, 20, 32⟩
        (.num 90)).values = [.num 80, .num 90] :=
  claim_C4_pair_ordered ⟨0, 250, 1⟩
    ⟨[.num 50, .num 80], .num 50, some (.num 80), 20, some 32, 20, 32⟩
    (.num 90) (.num 80) (Or.inl rfl)

/-- Claim C5: the drag callback proposes
`Math.round(min + (max - min) * (p / 100))` and the engine stores its
normalization; in the spec's scenario `min = 0, max = 100, step = 5`, the
percentages producing raw values `52` and `53` store `50` and `55`. -/
theorem claim_C5_drag_mapping :
    (∀ (cfg : Config) (v t : ℚ) (mt : Option ℚ) (bl : ℚ) (mbl : Option ℚ)
        (tl tr p : ℚ),
      (dragSubmit cfg false ⟨[v], t, mt, bl, mbl, tl, tr⟩ p).values =
        [normalizeMinMax cfg (dragProposedValue cfg p)]) ∧
    dragProposedValue ⟨0, 100, 5⟩ 52 = 52 ∧
    dragProposedValue ⟨0, 100, 5⟩ 53 = 53 ∧
    (dragSubmit ⟨0, 100, 5⟩ false ⟨[50], 50, none, 50, none, 0, 50⟩
        52).values = [50] ∧
    (dragSubmit ⟨0, 100, 5⟩ false ⟨[50], 50, none, 50, none, 0, 50⟩
        53).values = [55] := by
  refine ⟨?_, by norm_num [dragProposedValue, jsRound],
    by norm_num [dragProposedValue, jsRound],
    by norm_num [dragSubmit, dragProposedValue, updateMin, updateValues,
      updateTrack, normalizeMinMax, jsMod, jsTrunc, jsRound],
    by norm_num [dragSubmit, dragProposedValue, updateMin, updateValues,
      updateTrack, normalizeMinMax, jsMod, jsTrunc, jsRound]⟩
  intro cfg v t mt bl mbl tl tr p
  show (updateMin cfg ⟨[v], t, mt, bl, mbl, tl, tr⟩
      (dragProposedValue cfg p)).values =
    [normalizeMinMax cfg (dragProposedValue cfg p)]
  unfold updateMin
  dsimp only [List.set]
  exact updateValues_single_values cfg _ _

/-- Claim C6, counterexample: supplying only `min = 150` (so `max` defaults to
`100` and the effective bounds are inverted, `150 ≥ 100`) raises no error: the
constructor's `min >= max` guard only fires when BOTH `min` and `max` are
explicitly supplied, and the widget is built with `min = 150, max = 100`. -/
theorem slidyNew_accepts_inverted_defaults :
    slidyNew (some "#slidy") ⟨some 150, none, none, none, .undefined⟩ =
      .ok (⟨150, 100, 1⟩, none, [0]) ∧ (100 : ℚ) ≤ 150 := by
  exact ⟨rfl, by norm_num⟩

/-- Claim C6 (amended): construction succeeds exactly when a non-empty
container selector is supplied, `defaultValue` is absent or an array of
length 1 or 2, `min < max` whenever BOTH are explicitly supplied (a defaulted
bound is never compared), and `segmentsCount` is absent or `≥ 2`; the guards
run synchronously before anything is built (an error yields no
configuration). -/
theorem claim_C6_construction_guards (sel : Option String) (o : Options) :
    (∃ r, slidyNew sel o = .ok r) ↔ validOptions sel o := by
  unfold slidyNew validOptions
  split_ifs with h1 h2 h3 h4
  · simp [h1]
  · simp [h1, h2]
  · simp [h1, h2, h3]
  · simp [h1, h2, h3, h4]
  · simp [h1, h2, h3, h4]

/-- Claim C7: every text-input event stores the normalization of the
digits-only filtering of the entered text (coerced to a number), the empty
filtered string coerces to `0`, and a junk-only input (filtered to empty) thus
stores `normalize(0)` — e.g. with `min = 5` it clamps to `5`. -/
theorem claim_C7_text_input :
    (∀ (cfg : Config) (v t : ℚ) (mt : Option ℚ) (bl : ℚ) (mbl : Option ℚ)
        (tl tr : ℚ) (raw : List Char),
      (textInputSubmit cfg false ⟨[v], t, mt, bl, mbl, tl, tr⟩ raw).values =
        [normalizeMinMax cfg ((digitsToNat (filterDigits raw) : ℚ))]) ∧
    digitsToNat [] = 0 ∧
    filterDigits "a1b2c".toList = "12".toList ∧
    filterDigits "abc".toList = [] ∧
    (textInputSubmit ⟨5, 100, 1⟩ false ⟨[50], 50, none, 45, none, 0, 45⟩
        "abc".toList).values = [normalizeMinMax ⟨5, 100, 1⟩ 0] := by
  have habc : digitsToNat (filterDigits "abc".toList) = 0 := by decide
  refine ⟨?_, by decide, by decide, by decide, ?_⟩
  case refine_2 =>
    simp only [textInputSubmit, habc, Nat.cast_zero]
    norm_num [updateMin, updateValues, updateTrack, normalizeMinMax, jsMod,
      jsTrunc, jsRound]
  intro cfg v t mt bl mbl tl tr raw
  show (updateMin cfg ⟨[v], t, mt, bl, mbl, tl, tr⟩
      ((digitsToNat (filterDigits raw) : ℚ))).values =
    [normalizeMinMax cfg ((digitsToNat (filterDigits raw) : ℚ))]
  unfold updateMin
  dsimp only [List.set]
  exact updateValues_single_values cfg _ _

/-- Claim C8, counterexample: with `segmentsCount = 10, min = 0, max = 300`
the generated boundary values are the multiples of `100/3`; no segment
boundary has the value `150`, so the spec's scenario click cannot occur. -/
theorem no_boundary_at_150 :
    (150 : ℚ) ∉ segmentBoundaries ⟨0, 300, 1⟩ 10 := by
  norm_num [segmentBoundaries, segmentLoop]

/-- Claim C8 (amended): a clicked boundary is routed to the lower slot exactly
when it is strictly below the current upper value (otherwise to the upper
slot), and always to the only slot in single mode; in the scenario's
configuration the boundary that exists at value `100` (not `150`), clicked
with `values = [20, 270]`, yields `values = [100, 270]`. -/
theorem claim_C8_segment_click :
    (∀ (cfg : Config) (a b t : ℚ) (mt : Option ℚ) (bl : ℚ) (mbl : Option ℚ)
        (tl tr i : ℚ),
      segmentClick cfg ⟨[a, b], t, mt, bl, mbl, tl, tr⟩ i =
        if i < b then updateMin cfg ⟨[a, b], t, mt, bl, mbl, tl, tr⟩ i
        else updateMax cfg ⟨[a, b], t, mt, bl, mbl, tl, tr⟩ i) ∧
    (∀ (cfg : Config) (v t : ℚ) (mt : Option ℚ) (bl : ℚ) (mbl : Option ℚ)
        (tl tr i : ℚ),
      segmentClick cfg ⟨[v], t, mt, bl, mbl, tl, tr⟩ i =
        updateMin cfg ⟨[v], t, mt, bl, mbl, tl, tr⟩ i) ∧
    (100 : ℚ) ∈ segmentBoundaries ⟨0, 300, 1⟩ 10 ∧
    (segmentClick ⟨0, 300, 1⟩ ⟨[20, 270], 20, some 270, 20, some 90, 20, 90⟩
        100).values = [100, 270] := by
  refine ⟨fun cfg a b t mt bl mbl tl tr i => rfl,
    fun cfg v t mt bl mbl tl tr i => rfl,
    by norm_num [segmentBoundaries, segmentLoop],
    by norm_num [segmentClick, updateMin, updateMax, updateValues, updateTrack,
      normalizeMinMax, jsMod, jsTrunc, jsRound]⟩

/-- Claim C9, counterexample: `Draggable.#handleMouseMove` computes
`event.pageX - width`; with a zero-width element and the pointer at
`pageX = 5` the offset is `5`, not `0` — a zero-width element does NOT force
the offset to `0`. -/
theorem zero_width_offset_not_zero :
    handleMouseMove 5 0 = 5 ∧ handleMouseMove 5 0 ≠ 0 := by
  norm_num [handleMouseMove]

/-- Claim C9 (amended): every pointer-move computes the total (never-failing)
offset `pageX - width`; with a zero-width element the offset equals the
pointer's absolute X (so it is `0` exactly when the pointer is at `X = 0`,
not regardless of position). -/
theorem claim_C9_mouse_move_offset :
    (∀ pageX width : ℚ, handleMouseMove pageX width = pageX - width) ∧
    (∀ pageX : ℚ, handleMouseMove pageX 0 = pageX) ∧
    handleMouseMove 0 0 = 0 := by
  refine ⟨fun pageX width => rfl, fun pageX => by simp [handleMouseMove],
    by norm_num [handleMouseMove]⟩

/-- Claim C10: in single-value mode `#updateMax` returns before touching
anything, so submitting any value to the upper slot leaves the whole widget
state — stored values, both text inputs, and every track/handle style hook —
unchanged, and neither `updateValues` nor `#updateTrack` runs. -/
theorem claim_C10_updateMax_noop :
    ∀ (cfg : Config) (v t : ℚ) (mt : Option ℚ) (bl : ℚ) (mbl : Option ℚ)
      (tl tr x : ℚ),
      updateMax cfg ⟨[v], t, mt, bl, mbl, tl, tr⟩ x =
        ⟨[v], t, mt, bl, mbl, tl, tr⟩ :=
  fun _ _ _ _ _ _ _ _ _ => rfl

end Slidy
